import Mathlib

/-
Verification of the differential-drive motion library (`dom` / `appa`).

The repository ships two variants of the library: `src/dom/dom.cpp` (the
historical variant) and `src/appa/chassis.cpp` + `src/appa/odom.cpp` (the
current variant, which the specification describes).  The embedding below
follows the `appa` variant; where the `dom` variant diverges this is noted.

Machine doubles are modelled as exact rationals (ℚ).  The constant `M_PI`
is a parameter `pi : ℚ`, and `M_PI_2` is `pi / 2` (exactly half of `M_PI`
in IEEE arithmetic).  Trigonometric functions are parameters
`c s : ℚ → ℚ` standing for cosine and sine.  NaN-carrying doubles (used
only by the pose setters) are modelled as `Option ℚ` with `none` for NaN.

Declarations whose C++ source lives in the headers `appa.h` / `dom.h`
(absent from the repository snapshot) are modelled from the spec and
marked as such in their doc comments.
-/

namespace Appa

/-- A 2-D point, from the `Point` struct (header).  The C++ `Point` is also
used as a plain pair with aliased accessors `left/right` and
`linear/angular`; those uses get their own structures below. -/
structure Point where
  x : ℚ
  y : ℚ
deriving DecidableEq

/-- A pose `{x, y, theta}`, from the `Pose` struct (header). -/
structure PoseQ where
  x : ℚ
  y : ℚ
  theta : ℚ
deriving DecidableEq

/-- Modelled from the spec: `Point::rotate` (header, not under `src/`) —
rotation of a point by an angle, with cosine and sine supplied as the
function parameters `c` and `s`. -/
def Point.rotate (c s : ℚ → ℚ) (p : Point) (θ : ℚ) : Point :=
  ⟨p.x * c θ - p.y * s θ, p.x * s θ + p.y * c θ⟩

/-- PID gains `{kp, ki, kd}`, from the `Gains` struct (header). -/
structure Gains where
  kp : ℚ
  ki : ℚ
  kd : ℚ
deriving DecidableEq

/-- PID controller state, from the `PID` class (header). -/
structure PID where
  g : Gains
  prev_error : ℚ
  total_error : ℚ
deriving DecidableEq

/-- Modelled from the spec: `PID::update` (header, not under `src/`), §4.2 —
`derivative = (error − prev_error)/dt`; `integral += error·dt`; returns
`kp·error + ki·integral + kd·derivative` and the updated state. -/
def PID.update (st : PID) (error dt : ℚ) : ℚ × PID :=
  let derivative := (error - st.prev_error) / dt
  let integral := st.total_error + error * dt
  (st.g.kp * error + st.g.ki * integral + st.g.kd * derivative,
   ⟨st.g, error, integral⟩)

/-- Modelled from the spec: `PID::reset` (header, not under `src/`), §4.2 —
sets `prev_error = error` and zeroes the integral accumulator. -/
def PID.reset (st : PID) (error : ℚ) : PID :=
  ⟨st.g, error, 0⟩

/-- Modelled from the spec: `limit` (header, not under `src/`) — clamps a
value's magnitude to the given maximum. -/
def limit (v m : ℚ) : ℚ :=
  if v > m then m else if v < -m then -m else v

/-- The `Direction` enum (header); the values used by `chassis.cpp`. -/
inductive Direction where
  | AUTO
  | FORWARD
  | REVERSE
  | CW
  | CCW
deriving DecidableEq

/-- The loop's `Point error` with its `linear`/`angular` accessors. -/
structure Err where
  linear : ℚ
  angular : ℚ
deriving DecidableEq

/-- The loop's `Point speeds` with its `left`/`right` accessors. -/
structure Speeds where
  left : ℚ
  right : ℚ
deriving DecidableEq

/-- Direction resolution, `appa/chassis.cpp` lines 181–186: with `AUTO`
direction, pick `REVERSE` when `fabs(error.angular) > M_PI_2`, else
`FORWARD`; otherwise keep the explicit direction. -/
def resolveDir (autoDir : Bool) (dir : Direction) (pi : ℚ) (e : Err) : Direction :=
  if autoDir then
    (if |e.angular| > pi / 2 then Direction.REVERSE else Direction.FORWARD)
  else dir

/-- Direction application, `appa/chassis.cpp` lines 187–190: if the
direction is `REVERSE`, shift the angular error by `∓π` and negate the
linear error. -/
def applyDir (dir : Direction) (pi : ℚ) (e : Err) : Err :=
  if dir = Direction.REVERSE then
    ⟨e.linear * (-1), e.angular + (if e.angular > 0 then -pi else pi)⟩
  else e

/-- The clamp-and-rescale step, `appa/chassis.cpp` lines 203–211 (the `dom`
variant, `dom.cpp` lines 212–219, is the same computation with an
`else if` between the branches): each overflowing wheel is assigned
`max_speed` and the other wheel is multiplied by `max_speed` divided by
the just-assigned value. -/
def scaleSpeeds (max_speed : ℚ) (s : Speeds) : Speeds :=
  let s1 :=
    if s.left > max_speed then
      let l := max_speed
      (⟨l, s.right * (max_speed / l)⟩ : Speeds)
    else s
  let s2 :=
    if s1.right > max_speed then
      let r := max_speed
      (⟨s1.left * (max_speed / r), r⟩ : Speeds)
    else s1
  s2

/-- The acceleration slew step, `appa/chassis.cpp` lines 213–219
(`turn_task` lines 314–319 are identical): when `accel_step` is nonzero,
a wheel whose commanded value exceeds the previous value by more than
`accel_step` is set to `prev + accel_step`. -/
def slewSpeeds (accel_step : ℚ) (prev s : Speeds) : Speeds :=
  if accel_step ≠ 0 then
    ⟨if s.left - prev.left > accel_step then prev.left + accel_step else s.left,
     if s.right - prev.right > accel_step then prev.right + accel_step else s.right⟩
  else s

/-- Rounding toward zero, as C integer conversion and `fmod` use it:
floor for non-negative values, ceiling for negative ones. -/
def ratTrunc (q : ℚ) : ℤ :=
  if 0 ≤ q then ⌊q⌋ else ⌈q⌉

/-- C `fmod` over ℚ: `fmod(a, b) = a − b·trunc(a/b)` with `trunc` rounding
toward zero, so the result carries the sign of `a` (e.g.
`fmod(-3, 2) = -1`, not the Euclidean remainder `1`). -/
def fmodQ (a b : ℚ) : ℚ :=
  a - b * (ratTrunc (a / b) : ℚ)

/- ----------------------------------------------------------------- -/
/- The move control loop, `appa/chassis.cpp` `Chassis::move_task`.     -/
/- The pose-dependent raw error pair
   `(pose.dist(target), pose.angle(target))` of each tick is supplied
   as an oracle input, since it depends only on external sensor data.  -/
/- ----------------------------------------------------------------- -/

/-- Resolved per-motion parameters of `move_task` (lines 138–171);
`accel_step = accel·dt/1000` is precomputed as in line 171. -/
structure MoveParams where
  pi : ℚ
  autoDir : Bool
  dir : Direction
  exitTol : ℚ
  timeout : ℤ
  max_speed : ℚ
  accel_step : ℚ
  thru : Bool
deriving DecidableEq

/-- The loop-carried state of `move_task`: the two PID controllers and the
shared `prev_speeds` pair written by `tank`. -/
structure LoopState where
  linPID : PID
  angPID : PID
  prev_speeds : Speeds
deriving DecidableEq

/-- The error after direction resolution and application
(`appa/chassis.cpp` lines 181–190). -/
def moveError (P : MoveParams) (raw : Err) : Err :=
  applyDir (resolveDir P.autoDir P.dir P.pi raw) P.pi raw

/-- One pass of the `move_task` loop body through the speed pipeline
(lines 192–222): PID (skipped for linear when `thru`), per-axis limit,
differential mix, clamp-and-rescale, slew, and the `tank` write that
records `prev_speeds`.  `dt = 10` as in line 167. -/
def moveSpeeds (P : MoveParams) (raw : Err) (st : LoopState) : Speeds × LoopState :=
  let error := moveError P raw
  let lin := if P.thru then (P.max_speed, st.linPID) else st.linPID.update error.linear 10
  let ang := st.angPID.update error.angular 10
  let lin_speed := limit lin.1 P.max_speed
  let ang_speed := limit ang.1 P.max_speed
  let mixed : Speeds := ⟨lin_speed - ang_speed, lin_speed + ang_speed⟩
  let scaled := scaleSpeeds P.max_speed mixed
  let slewed := slewSpeeds P.accel_step st.prev_speeds scaled
  (slewed, ⟨lin.2, ang.2, slewed⟩)

/-- The exit decision of one `move_task` iteration (lines 225–226): break
when `timeout > 0` and the elapsed time exceeds it, or when the (already
direction-adjusted) linear error is below the exit tolerance. -/
def moveDone (P : MoveParams) (raw : Err) (elapsed : ℤ) : Bool :=
  (decide (P.timeout > 0) && decide (elapsed > P.timeout)) ||
    decide ((moveError P raw).linear < P.exitTol)

/-- One full iteration of the `move_task` control loop: commanded speeds,
updated loop state, and the exit decision. -/
def moveIteration (P : MoveParams) (raw : Err) (st : LoopState) (elapsed : ℤ) :
    Speeds × LoopState × Bool :=
  let r := moveSpeeds P raw st
  (r.1, r.2, moveDone P raw elapsed)

/-- The `move_task` control loop (lines 174–231): consume one oracle error
pair per tick, command the computed speeds, and on exit run `stop(false)`
which issues `tank(0, 0)` (line 231, `stop` at lines 386–393).  The
elapsed time advances by `dt = 10` ms per tick.  Returns the trace of
`tank` commands; an empty oracle list plays the role of fuel running
out with the loop still live. -/
def runMove (P : MoveParams) : LoopState → List Err → ℤ → List Speeds
  | _, [], _ => []
  | st, raw :: rest, elapsed =>
    let r := moveIteration P raw st elapsed
    if r.2.2 then [r.1, ⟨0, 0⟩]
    else r.1 :: runMove P r.2.1 rest (elapsed + 10)

/- ----------------------------------------------------------------- -/
/- The turn control loop, `appa/chassis.cpp` `Chassis::turn_task`.     -/
/- ----------------------------------------------------------------- -/

/-- Resolved per-motion parameters of `turn_task` (lines 256–289). -/
structure TurnParams where
  pi : ℚ
  target : ℚ
  turn_dir : Direction
  exitTol : ℚ
  timeout : ℤ
  max_speed : ℚ
  accel_step : ℚ
  thru : Bool
deriving DecidableEq

/-- The loop-carried state of `turn_task`. -/
structure TurnState where
  angPID : PID
  prev_speeds : Speeds
deriving DecidableEq

/-- The turn error of one iteration (lines 296–302):
`fmod(target − heading, π)` followed by the `CW`/`CCW` full-turn
adjustment. -/
def turnError (T : TurnParams) (heading : ℚ) : ℚ :=
  let e := fmodQ (T.target - heading) T.pi
  if T.turn_dir = Direction.CW ∧ e < 0 then e + 2 * T.pi
  else if T.turn_dir = Direction.CCW ∧ e > 0 then e - 2 * T.pi
  else e

/-- One pass of the `turn_task` loop body through the speed pipeline
(lines 305–322). -/
def turnSpeeds (T : TurnParams) (heading : ℚ) (ts : TurnState) : Speeds × TurnState :=
  let e := turnError T heading
  let ang := if T.thru then ((if e > 0 then T.max_speed else -T.max_speed), ts.angPID)
             else ts.angPID.update e 10
  let ang_speed := limit ang.1 T.max_speed
  let mixed : Speeds := ⟨-ang_speed, ang_speed⟩
  let slewed := slewSpeeds T.accel_step ts.prev_speeds mixed
  (slewed, ⟨ang.2, slewed⟩)

/-- The exit decision of one `turn_task` iteration (lines 325–326). -/
def turnDone (T : TurnParams) (heading : ℚ) (elapsed : ℤ) : Bool :=
  (decide (T.timeout > 0) && decide (elapsed > T.timeout)) ||
    decide (turnError T heading < T.exitTol)

/-- One full iteration of the `turn_task` control loop. -/
def turnIteration (T : TurnParams) (heading : ℚ) (ts : TurnState) (elapsed : ℤ) :
    Speeds × TurnState × Bool :=
  let r := turnSpeeds T heading ts
  (r.1, r.2, turnDone T heading elapsed)

/-- The `turn_task` control loop (lines 292–331), analogous to `runMove`;
the per-tick heading readings are the oracle inputs. -/
def runTurn (T : TurnParams) : TurnState → List ℚ → ℤ → List Speeds
  | _, [], _ => []
  | ts, heading :: rest, elapsed =>
    let r := turnIteration T heading ts elapsed
    if r.2.2 then [r.1, ⟨0, 0⟩]
    else r.1 :: runTurn T r.2.1 rest (elapsed + 10)

/- ----------------------------------------------------------------- -/
/- The odometry estimator, `appa/odom.cpp`, on NaN-free doubles (ℚ).   -/
/- ----------------------------------------------------------------- -/

/-- The mutex-guarded state of `Odom`: the shared pose `odom_pose`, the
`tracker_linear_offset`, and whether the sampling task has been spawned
(`odom_task != nullptr`). -/
structure OdomQ where
  pose : PoseQ
  offset : Point
  started : Bool
deriving DecidableEq

/-- `Odom::get` (`appa/odom.cpp` lines 80–84): the shared pose plus the
linear tracker offset rotated by the current heading (`Pose + Point`
adds to the positional part only). -/
def OdomQ.get (c s : ℚ → ℚ) (st : OdomQ) : PoseQ :=
  let off := st.offset.rotate c s st.pose.theta
  ⟨st.pose.x + off.x, st.pose.y + off.y, st.pose.theta⟩

/-- `Odom::get_local` (`appa/odom.cpp` lines 86–89): the raw shared pose. -/
def OdomQ.get_local (st : OdomQ) : PoseQ :=
  st.pose

/-- `Odom::set_local` (`appa/odom.cpp` lines 98–105) restricted to NaN-free
inputs (the NaN merge is modelled separately below): stores the pose and
re-seeds the heading sensor (an external side effect not part of this
state). -/
def OdomQ.set_local (p : PoseQ) (st : OdomQ) : OdomQ :=
  ⟨p, st.offset, st.started⟩

/-- `Odom::set` (`appa/odom.cpp` lines 91–96): subtracts the linear offset
rotated by the heading stored *before* the call (`Pose -= Point` touches
the positional part only), then delegates to `set_local`. -/
def OdomQ.set (c s : ℚ → ℚ) (p : PoseQ) (st : OdomQ) : OdomQ :=
  let off := st.offset.rotate c s st.pose.theta
  OdomQ.set_local ⟨p.x - off.x, p.y - off.y, p.theta⟩ st

/-- `Odom::set_theta` (`appa/odom.cpp` lines 117–121): re-seeds the heading
sensor (external side effect) and stores the given heading verbatim. -/
def OdomQ.set_theta (θ : ℚ) (st : OdomQ) : OdomQ :=
  ⟨⟨st.pose.x, st.pose.y, θ⟩, st.offset, st.started⟩

/-- One 5 ms tick of `Odom::task` (`appa/odom.cpp` lines 31–64): delta of
the sampled track, arc-chord correction when `dtheta ≠ 0`, rotation into
the global frame by `track.theta + tracker_angular_offset`, addition to
the shared pose, and direct overwrite of the shared heading with
`track.theta`.  The sampled `track` and `prev_track` poses are oracle
inputs (they come from the encoders and the heading sensor). -/
def OdomQ.tick (c s : ℚ → ℚ) (angOff : ℚ) (track prev_track : PoseQ) (st : OdomQ) : OdomQ :=
  let dtrack : Point := ⟨track.x - prev_track.x, track.y - prev_track.y⟩
  let dtheta := track.theta - prev_track.theta
  let dtrack :=
    if dtheta ≠ 0 then
      (⟨dtrack.x * (2 * s (dtheta / 2) / dtheta),
        dtrack.y * (2 * s (dtheta / 2) / dtheta)⟩ : Point)
    else dtrack
  let dtrack := dtrack.rotate c s (track.theta + angOff)
  ⟨⟨st.pose.x + dtrack.x, st.pose.y + dtrack.y, track.theta⟩, st.offset, st.started⟩

/-- `Odom::start` (`appa/odom.cpp` lines 67–78): if the blocking IMU
calibration fails, print an error and return with nothing changed; on
success reset the pose through `set({0,0,0})` and spawn the sampling
task when none is running. -/
def OdomQ.start (c s : ℚ → ℚ) (calibOk : Bool) (st : OdomQ) : OdomQ :=
  if !calibOk then st
  else
    let st1 := OdomQ.set c s ⟨0, 0, 0⟩ st
    if st.started then st1 else ⟨st1.pose, st1.offset, true⟩

/- ----------------------------------------------------------------- -/
/- The pose setters on NaN-carrying doubles.                           -/
/- A double that may be NaN is `Option ℚ`, with `none` for NaN; all    -/
/- arithmetic on NaN yields NaN.                                       -/
/- ----------------------------------------------------------------- -/

/-- A double that may be NaN. -/
abbrev Fl := Option ℚ

/-- `std::isnan`. -/
def isnan (a : Fl) : Bool :=
  a.isNone

/-- Subtraction of possibly-NaN doubles: NaN propagates. -/
def flSub : Fl → Fl → Fl
  | some a, some b => some (a - b)
  | _, _ => none

/-- A pose whose components may be NaN. -/
structure PoseF where
  x : Fl
  y : Fl
  theta : Fl
deriving DecidableEq

/-- The `Odom` state for the NaN-carrying setter model (the offset and
task fields play no role in the setters' stored-pose behavior). -/
structure OdomF where
  pose : PoseF
deriving DecidableEq

/-- `Odom::set_local` (`appa/odom.cpp` lines 98–105): each axis passed as
NaN is replaced by the currently stored axis, then the merged pose is
stored (and the heading sensor is re-seeded — an external side effect). -/
def OdomF.set_local (p : PoseF) (st : OdomF) : OdomF :=
  ⟨⟨if isnan p.x then st.pose.x else p.x,
    if isnan p.y then st.pose.y else p.y,
    if isnan p.theta then st.pose.theta else p.theta⟩⟩

/-- `Odom::set` (`appa/odom.cpp` lines 91–96): subtracts the rotated linear
offset (supplied here as the already-rotated pair `off`, a plain non-NaN
value) from the positional part, then delegates to `set_local`.  A NaN
axis stays NaN through the subtraction. -/
def OdomF.set (off : ℚ × ℚ) (p : PoseF) (st : OdomF) : OdomF :=
  OdomF.set_local ⟨flSub p.x (some off.1), flSub p.y (some off.2), p.theta⟩ st

/-- `Odom::set_x` (`appa/odom.cpp` lines 107–110): stores the argument
unconditionally — no NaN check. -/
def OdomF.set_x (x : Fl) (st : OdomF) : OdomF :=
  ⟨⟨x, st.pose.y, st.pose.theta⟩⟩

/-- `Odom::set_y` (`appa/odom.cpp` lines 112–115): stores the argument
unconditionally — no NaN check. -/
def OdomF.set_y (y : Fl) (st : OdomF) : OdomF :=
  ⟨⟨st.pose.x, y, st.pose.theta⟩⟩

/-- `Odom::set_theta` (`appa/odom.cpp` lines 117–121): stores the argument
unconditionally — no NaN check. -/
def OdomF.set_theta (θ : Fl) (st : OdomF) : OdomF :=
  ⟨⟨st.pose.x, st.pose.y, θ⟩⟩

/- ----------------------------------------------------------------- -/
/- Theorems.                                                           -/
/- ----------------------------------------------------------------- -/

/-- Sanity check that `fmodQ` follows the C `fmod` convention — the
result carries the sign of the dividend, via truncated division — and
not the Euclidean one: `fmod(-3, 2) = -1` (not `1`), `fmod(-7, 3) = -1`
(not `2`), `fmod(-7/2, 2) = -3/2` (not `1/2`), `fmod(7, 3) = 1`. -/
theorem fmodQ_truncates_toward_zero :
    fmodQ (-3) 2 = -1 ∧ fmodQ (-7) 3 = -1 ∧
    fmodQ (-7 / 2) 2 = -3 / 2 ∧ fmodQ 7 3 = 1 := by
  refine ⟨?_, ?_, ?_, ?_⟩ <;> norm_num [fmodQ, ratTrunc, Int.ceil_neg]

/-- C1: the clamp-and-rescale step is claimed to clamp the overflowing
wheel to max speed and scale the other wheel by the same factor,
preserving the left/right ratio.  The code instead divides by the
just-clamped value, so the scale factor is `max_speed / max_speed = 1`
and the other wheel is left unchanged: at `max_speed = 100` and pre-step
speeds `(140, 20)` the result is `(100, 20)`, and the pre-step ratio
`140 / 20` is not preserved (`100·20 ≠ 140·20`, i.e. `100/20 ≠ 140/20`). -/
theorem scale_step_divides_by_clamped :
    scaleSpeeds 100 ⟨140, 20⟩ = (⟨100, 20⟩ : Speeds) ∧
    (scaleSpeeds 100 (⟨140, 20⟩ : Speeds)).left * 20 ≠
      140 * (scaleSpeeds 100 (⟨140, 20⟩ : Speeds)).right := by
  norm_num [scaleSpeeds]

/-- C2: with direction `AUTO`, the resolved direction is `REVERSE` iff the
absolute angular error exceeds `π/2` (purely threshold-based; at exactly
`π/2` it is `FORWARD`), and applying `REVERSE` negates the linear error
and shifts the angular error by `±π` (the mirror across π); applying
`FORWARD` changes nothing. -/
theorem auto_direction_resolution (pi : ℚ) (d : Direction) (e : Err) :
    (resolveDir true d pi e = Direction.REVERSE ↔ pi / 2 < |e.angular|) ∧
    (resolveDir true d pi e = Direction.FORWARD ↔ |e.angular| ≤ pi / 2) ∧
    (applyDir Direction.REVERSE pi e).linear = -e.linear ∧
    (∃ k : ℚ, (k = pi ∨ k = -pi) ∧
      (applyDir Direction.REVERSE pi e).angular = e.angular + k) ∧
    applyDir Direction.FORWARD pi e = e := by
  refine ⟨?_, ?_, ?_, ?_, rfl⟩
  · simp only [resolveDir, if_true]
    split_ifs with h
    · simp [h]
    · simp [h, not_lt.mp h]
  · simp only [resolveDir, if_true]
    split_ifs with h
    · simp [h, not_le.mpr h]
    · simp [not_lt.mp h]
  · simp [applyDir, mul_neg_one]
  · by_cases h : e.angular > 0
    · exact ⟨-pi, Or.inr rfl, by simp [applyDir, h]⟩
    · exact ⟨pi, Or.inl rfl, by simp [applyDir, h]⟩

/-- C4 counterexample: at `accel_step = 1`, previous speeds `(0, 0)` and
commanded speeds `(−10, 0)`, the left wheel's commanded change is `−10`,
whose magnitude exceeds `accel_step`, yet the applied left speed is
`−10` — the change is not capped at `accel_step` in the commanded
(decreasing) direction, which would give `−1`. -/
theorem slew_skips_negative_delta :
    slewSpeeds 1 ⟨0, 0⟩ ⟨-10, 0⟩ = (⟨-10, 0⟩ : Speeds) ∧
    (1 : ℚ) < |(-10 : ℚ) - 0| ∧ ((-10 : ℚ)) ≠ 0 + (-1) := by
  norm_num [slewSpeeds]

/-- C4 (amended): when `accel_step` is nonzero, the slew step caps only
*increases*: a wheel whose commanded value exceeds the previous value by
more than `accel_step` is set to exactly `prev + accel_step`; any other
commanded value — including arbitrarily large decreases — is applied
unchanged. -/
theorem slew_caps_increase_only (a : ℚ) (prev s : Speeds) (ha : a ≠ 0) :
    (a < s.left - prev.left → (slewSpeeds a prev s).left = prev.left + a) ∧
    (s.left - prev.left ≤ a → (slewSpeeds a prev s).left = s.left) ∧
    (a < s.right - prev.right → (slewSpeeds a prev s).right = prev.right + a) ∧
    (s.right - prev.right ≤ a → (slewSpeeds a prev s).right = s.right) := by
  unfold slewSpeeds
  rw [if_pos ha]
  refine ⟨fun h => ?_, fun h => ?_, fun h => ?_, fun h => ?_⟩
  · simp [h]
  · simp [not_lt.mpr h]
  · simp [h]
  · simp [not_lt.mpr h]

/-- C4 witness: the amended slew property at `accel_step = 1`, previous
speeds `(0, 0)` and commanded speeds `(5, −9)`. -/
theorem slew_caps_increase_only_witness :
    (1 : ℚ) ≠ 0 ∧
    (((1 : ℚ) < (Speeds.mk 5 (-9)).left - (Speeds.mk 0 0).left →
        (slewSpeeds 1 ⟨0, 0⟩ ⟨5, -9⟩).left = (Speeds.mk 0 0).left + 1) ∧
     ((Speeds.mk 5 (-9)).left - (Speeds.mk 0 0).left ≤ 1 →
        (slewSpeeds 1 ⟨0, 0⟩ ⟨5, -9⟩).left = (Speeds.mk 5 (-9)).left) ∧
     ((1 : ℚ) < (Speeds.mk 5 (-9)).right - (Speeds.mk 0 0).right →
        (slewSpeeds 1 ⟨0, 0⟩ ⟨5, -9⟩).right = (Speeds.mk 0 0).right + 1) ∧
     ((Speeds.mk 5 (-9)).right - (Speeds.mk 0 0).right ≤ 1 →
        (slewSpeeds 1 ⟨0, 0⟩ ⟨5, -9⟩).right = (Speeds.mk 5 (-9)).right)) :=
  ⟨by decide, slew_caps_increase_only 1 ⟨0, 0⟩ ⟨5, -9⟩ (by decide)⟩

/-- C9: for any error `e` and `dt > 0`, `reset(e)` followed by one
`update(e, dt)` has zero derivative contribution: the `kd` term vanishes
(since `prev_error = e` after the reset) and the returned value is
exactly `kp·e + ki·(e·dt)`. -/
theorem pid_reset_update_no_derivative (st : PID) (e dt : ℚ) (_hdt : 0 < dt) :
    ((PID.reset st e).update e dt).1 = st.g.kp * e + st.g.ki * (e * dt) ∧
    st.g.kd * ((e - (PID.reset st e).prev_error) / dt) = 0 := by
  constructor
  · simp [PID.reset, PID.update]
  · simp [PID.reset]

/-- C9 witness: gains `(1, 2, 3)`, stale state `(7, 9)`, error `5`,
`dt = 10`. -/
theorem pid_reset_update_no_derivative_witness :
    (0 : ℚ) < 10 ∧
    (((PID.reset ⟨⟨1, 2, 3⟩, 7, 9⟩ 5).update 5 10).1 =
        (PID.mk ⟨1, 2, 3⟩ 7 9).g.kp * 5 + (PID.mk ⟨1, 2, 3⟩ 7 9).g.ki * (5 * 10) ∧
     (PID.mk ⟨1, 2, 3⟩ 7 9).g.kd * ((5 - (PID.reset ⟨⟨1, 2, 3⟩, 7, 9⟩ 5).prev_error) / 10) = 0) :=
  ⟨by decide, pid_reset_update_no_derivative ⟨⟨1, 2, 3⟩, 7, 9⟩ 5 10 (by decide)⟩

/-- C3: one iteration of the move loop decides to stop exactly when the
timeout is positive and the elapsed time exceeds it, or the
(direction-adjusted) linear error is below the exit tolerance; a timeout
of `0` disables the time-based exit instead of causing an immediate
exit; and whenever the exit fires, the command trace produced by the
loop ends with the zero wheel command issued by `stop(false)`.  The turn
loop behaves the same with the angular error in place of the linear
one. -/
theorem exit_conditions (P : MoveParams) (T : TurnParams) (raw : Err) (heading : ℚ)
    (st : LoopState) (ts : TurnState) (elapsed eT : ℤ) (rest : List Err) (restT : List ℚ) :
    ((moveIteration P raw st elapsed).2.2 = true ↔
      ((0 < P.timeout ∧ P.timeout < elapsed) ∨ (moveError P raw).linear < P.exitTol)) ∧
    (P.timeout = 0 →
      ((moveIteration P raw st elapsed).2.2 = true ↔ (moveError P raw).linear < P.exitTol)) ∧
    ((moveIteration P raw st elapsed).2.2 = true →
      runMove P st (raw :: rest) elapsed = [(moveIteration P raw st elapsed).1, ⟨0, 0⟩]) ∧
    ((turnIteration T heading ts eT).2.2 = true ↔
      ((0 < T.timeout ∧ T.timeout < eT) ∨ turnError T heading < T.exitTol)) ∧
    (T.timeout = 0 →
      ((turnIteration T heading ts eT).2.2 = true ↔ turnError T heading < T.exitTol)) ∧
    ((turnIteration T heading ts eT).2.2 = true →
      runTurn T ts (heading :: restT) eT = [(turnIteration T heading ts eT).1, ⟨0, 0⟩]) := by
  have hm : (moveIteration P raw st elapsed).2.2 = moveDone P raw elapsed := rfl
  have ht : (turnIteration T heading ts eT).2.2 = turnDone T heading eT := rfl
  refine ⟨?_, fun h0 => ?_, fun hd => ?_, ?_, fun h0 => ?_, fun hd => ?_⟩
  · rw [hm]
    simp [moveDone, Bool.or_eq_true, Bool.and_eq_true, decide_eq_true_eq]
  · rw [hm]
    simp [moveDone, h0]
  · simp [runMove, hd]
  · rw [ht]
    simp [turnDone, Bool.or_eq_true, Bool.and_eq_true, decide_eq_true_eq]
  · rw [ht]
    simp [turnDone, h0]
  · simp [runTurn, hd]

/-- C10: in the move loop, whenever the direction resolves to `REVERSE`
(explicitly or via `AUTO` with `|angular error| > π/2`), the raw linear
error — which, being a distance, is non-negative — is negated to a
non-positive value before the exit test, so with any positive exit
tolerance the tolerance exit fires and the loop terminates at the end of
that same iteration, the final command in its trace being `tank(0,0)`. -/
theorem reverse_terminates_same_iteration (P : MoveParams) (raw : Err) (st : LoopState)
    (elapsed : ℤ) (rest : List Err)
    (hdir : resolveDir P.autoDir P.dir P.pi raw = Direction.REVERSE)
    (hlin : 0 ≤ raw.linear) (htol : 0 < P.exitTol) :
    (moveError P raw).linear ≤ 0 ∧
    (moveIteration P raw st elapsed).2.2 = true ∧
    runMove P st (raw :: rest) elapsed = [(moveIteration P raw st elapsed).1, ⟨0, 0⟩] := by
  have hle : (moveError P raw).linear ≤ 0 := by
    rw [moveError, hdir]
    simp only [applyDir, if_pos rfl]
    rw [mul_neg_one]
    exact neg_nonpos.mpr hlin
  have hdone : moveDone P raw elapsed = true := by
    simp only [moveDone, Bool.or_eq_true, Bool.and_eq_true, decide_eq_true_eq]
    exact Or.inr (lt_of_le_of_lt hle htol)
  have h22 : (moveIteration P raw st elapsed).2.2 = moveDone P raw elapsed := rfl
  refine ⟨hle, h22.trans hdone, ?_⟩
  simp [runMove, h22.trans hdone]

/-- A concrete loop state for witnesses: unit proportional gains, freshly
reset controllers, zero previous speeds. -/
def sampleLoopState : LoopState :=
  ⟨⟨⟨1, 0, 0⟩, 0, 0⟩, ⟨⟨1, 0, 0⟩, 0, 0⟩, ⟨0, 0⟩⟩

/-- C10 witness: direction `AUTO` with raw angular error `3` exceeding
half the π stand-in `3`, raw linear error `50`, exit tolerance `1`,
timeout `0`. -/
theorem reverse_terminates_same_iteration_witness :
    resolveDir true Direction.AUTO 3 ⟨50, 3⟩ = Direction.REVERSE ∧
    (0 : ℚ) ≤ (Err.mk 50 3).linear ∧ (0 : ℚ) < 1 ∧
    ((moveError ⟨3, true, Direction.AUTO, 1, 0, 100, 0, false⟩ ⟨50, 3⟩).linear ≤ 0 ∧
     (moveIteration ⟨3, true, Direction.AUTO, 1, 0, 100, 0, false⟩ ⟨50, 3⟩
        sampleLoopState 0).2.2 = true ∧
     runMove ⟨3, true, Direction.AUTO, 1, 0, 100, 0, false⟩ sampleLoopState [⟨50, 3⟩] 0 =
       [(moveIteration ⟨3, true, Direction.AUTO, 1, 0, 100, 0, false⟩ ⟨50, 3⟩
          sampleLoopState 0).1, ⟨0, 0⟩]) :=
  ⟨by norm_num [resolveDir], by norm_num, by norm_num,
   reverse_terminates_same_iteration ⟨3, true, Direction.AUTO, 1, 0, 100, 0, false⟩ ⟨50, 3⟩
     sampleLoopState 0 [] (by norm_num [resolveDir]) (by norm_num) (by norm_num)⟩

/-- C5 counterexample: `set_x` with a NaN argument does not leave the
axis unchanged — it stores NaN over the previous value `5`. -/
theorem set_x_overwrites_nan :
    isnan (none : Fl) = true ∧
    (OdomF.set_x none ⟨⟨some 5, some 6, some 7⟩⟩).pose.x ≠ some 5 ∧
    (OdomF.set_x none ⟨⟨some 5, some 6, some 7⟩⟩).pose.x = none := by
  decide

/-- C5 (amended): `set` and `set_local` are per-axis merges — every NaN
axis retains its previous value and every non-NaN axis takes the
supplied value (for `set`, minus the rotated offset on the positional
axes) — but `set_x`, `set_y` and `set_theta` store their argument
unconditionally, NaN included. -/
theorem pose_setter_merge (p : PoseF) (st : OdomF) (off : ℚ × ℚ) (x y θ : Fl) :
    (OdomF.set_local p st).pose.x = (if isnan p.x then st.pose.x else p.x) ∧
    (OdomF.set_local p st).pose.y = (if isnan p.y then st.pose.y else p.y) ∧
    (OdomF.set_local p st).pose.theta = (if isnan p.theta then st.pose.theta else p.theta) ∧
    (OdomF.set off p st).pose.x = (if isnan p.x then st.pose.x else flSub p.x (some off.1)) ∧
    (OdomF.set off p st).pose.y = (if isnan p.y then st.pose.y else flSub p.y (some off.2)) ∧
    (OdomF.set off p st).pose.theta = (if isnan p.theta then st.pose.theta else p.theta) ∧
    (OdomF.set_x x st).pose.x = x ∧
    (OdomF.set_y y st).pose.y = y ∧
    (OdomF.set_theta θ st).pose.theta = θ := by
  obtain ⟨px, py, pθ⟩ := p
  refine ⟨rfl, rfl, rfl, ?_, ?_, rfl, rfl, rfl, rfl⟩
  · cases px <;> rfl
  · cases py <;> rfl

/-- C6: if the IMU calibration at `start()` fails, the odometry state is
left exactly as it was — the pose is not reset and no sampling task is
spawned, and the call simply returns (no retry); on success the pose is
reset through `set({0,0,0})` and the sampling task is (idempotently)
spawned. -/
theorem start_calibration_gate (c s : ℚ → ℚ) (st : OdomQ) :
    OdomQ.start c s false st = st ∧
    (OdomQ.start c s false st).started = st.started ∧
    (OdomQ.start c s true st).started = true ∧
    (OdomQ.start c s true st).pose = (OdomQ.set c s ⟨0, 0, 0⟩ st).pose := by
  refine ⟨rfl, rfl, ?_, ?_⟩ <;> by_cases hs : st.started <;>
    simp [OdomQ.start, OdomQ.set, OdomQ.set_local, hs]

/-- C7 (amended): `get()` returns `get_local()` plus the linear tracker
offset rotated by the current heading, exactly; but `set(p)` followed by
`get()` returns `p` shifted by the rotated offset at `p`'s heading minus
the rotated offset at the pre-call heading, because `set` subtracts the
offset rotated by the *old* stored heading while `get` adds it rotated
by the *new* one.  The round trip is exact precisely when those two
rotated offsets coincide (in particular when the heading is unchanged or
the offset is zero). -/
theorem get_set_offset_relation (c s : ℚ → ℚ) (st : OdomQ) (p : PoseQ) :
    (OdomQ.get c s st).x = (OdomQ.get_local st).x + (st.offset.rotate c s st.pose.theta).x ∧
    (OdomQ.get c s st).y = (OdomQ.get_local st).y + (st.offset.rotate c s st.pose.theta).y ∧
    (OdomQ.get c s st).theta = (OdomQ.get_local st).theta ∧
    OdomQ.get c s (OdomQ.set c s p st) =
      ⟨p.x + (st.offset.rotate c s p.theta).x - (st.offset.rotate c s st.pose.theta).x,
       p.y + (st.offset.rotate c s p.theta).y - (st.offset.rotate c s st.pose.theta).y,
       p.theta⟩ ∧
    (st.offset.rotate c s p.theta = st.offset.rotate c s st.pose.theta →
      OdomQ.get c s (OdomQ.set c s p st) = p) := by
  obtain ⟨px, py, pθ⟩ := p
  refine ⟨rfl, rfl, rfl, ?_, fun h => ?_⟩
  · simp only [OdomQ.get, OdomQ.set, OdomQ.set_local, PoseQ.mk.injEq]
    exact ⟨by ring, by ring, trivial⟩
  · simp only [OdomQ.get, OdomQ.set, OdomQ.set_local, h, PoseQ.mk.injEq]
    exact ⟨by ring, by ring, trivial⟩

/-- Cosine values at the two headings used in the round-trip
counterexample: heading `0` (cosine 1, sine 0) and the stand-in heading
`1` for π/2 (cosine 0, sine 1); both are genuine rotations with rational
matrix entries. -/
def cosSample (θ : ℚ) : ℚ :=
  if θ = 0 then 1 else 0

/-- Sine values matching `cosSample`. -/
def sinSample (θ : ℚ) : ℚ :=
  if θ = 0 then 0 else 1

/-- C7 counterexample: with tracker offset `(1, 0)`, stored heading `0`
and supplied pose `(0, 0, θ₁)` where `θ₁` is the heading with cosine 0
and sine 1 (i.e. π/2), `set` subtracts the offset rotated by the old
heading and the following `get` adds it rotated by the new heading: the
round trip returns `(−1, 1, θ₁)`, not the supplied pose. -/
theorem get_set_roundtrip_fails :
    OdomQ.get cosSample sinSample
        (OdomQ.set cosSample sinSample ⟨0, 0, 1⟩ ⟨⟨0, 0, 0⟩, ⟨1, 0⟩, false⟩) =
      (⟨-1, 1, 1⟩ : PoseQ) ∧
    OdomQ.get cosSample sinSample
        (OdomQ.set cosSample sinSample ⟨0, 0, 1⟩ ⟨⟨0, 0, 0⟩, ⟨1, 0⟩, false⟩) ≠
      (⟨0, 0, 1⟩ : PoseQ) := by
  norm_num [OdomQ.get, OdomQ.set, OdomQ.set_local, Point.rotate, cosSample, sinSample]

/-- C8 (amended): the heading is stored verbatim, with no normalization
anywhere: an odometry tick overwrites the shared heading with exactly
the sampled track heading, and `set_theta` stores exactly its argument,
so the stored heading lies in (−π, π] only when the written value
does. -/
theorem theta_stored_verbatim (c s : ℚ → ℚ) (angOff : ℚ) (track prev_track : PoseQ)
    (st : OdomQ) (θ : ℚ) :
    (OdomQ.tick c s angOff track prev_track st).pose.theta = track.theta ∧
    (OdomQ.set_theta θ st).pose.theta = θ :=
  ⟨rfl, rfl⟩

/-- C8 counterexample: `set_theta(1000)` stores the heading `1000`
verbatim, which lies outside (−π, π] — indeed outside every canonical
angle range, all of which are contained in (−7, 7) since `2π < 7`. -/
theorem set_theta_leaves_canonical_range :
    (OdomQ.set_theta 1000 ⟨⟨0, 0, 0⟩, ⟨0, 0⟩, false⟩).pose.theta = 1000 ∧
    ¬((1000 : ℚ) ≤ 7) := by
  exact ⟨rfl, by norm_num⟩

end Appa
